import Mathlib

/-!
Shallow embedding of `trendmonster_signal.py` (TrendMonster strategy, v2.1).

Python floats are embedded as exact rationals (`ℚ`); every numeric literal in
the source is an exact decimal, so thresholds and table weights are represented
exactly.  Fallible constructs (raising constructors, division by zero) are
embedded as `Except String`-valued functions.  The wall clock (`datetime.now()`)
is passed in as an explicit argument, and `datetime` values are modelled by
their ISO string content, the only observation the source makes of them.
-/

namespace Trendmonster

/- `StrategyParams`: the four VIX-ratio thresholds. -/
namespace StrategyParams

def VIX_VERY_LOW : ℚ := 0.80

def VIX_LOW : ℚ := 0.90

def VIX_MODERATE : ℚ := 0.95

def VIX_ELEVATED : ℚ := 1.05

end StrategyParams

/-- `class Trend(Enum)`. -/
inductive Trend where
  | UPTREND
  | DOWNTREND
deriving DecidableEq, Repr

/-- The `.value` string of a `Trend` member. -/
def Trend.value : Trend → String
  | .UPTREND => "UPTREND"
  | .DOWNTREND => "DOWNTREND"

/-- `class Posture(Enum)`. -/
inductive Posture where
  | CASH
  | AGGRESSIVE
  | BALANCED
  | DEFENSIVE
deriving DecidableEq, Repr

/-- The `.value` string of a `Posture` member. -/
def Posture.value : Posture → String
  | .CASH => "CASH"
  | .AGGRESSIVE => "AGGRESSIVE"
  | .BALANCED => "BALANCED"
  | .DEFENSIVE => "DEFENSIVE"

/-- `class VIXLevel(Enum)`. -/
inductive VIXLevel where
  | VERY_LOW
  | LOW
  | MODERATE
  | ELEVATED
  | HIGH
deriving DecidableEq, Repr

/-- The `.value` string of a `VIXLevel` member. -/
def VIXLevel.value : VIXLevel → String
  | .VERY_LOW => "VERY_LOW"
  | .LOW => "LOW"
  | .MODERATE => "MODERATE"
  | .ELEVATED => "ELEVATED"
  | .HIGH => "HIGH"

/-- The field content of `@dataclass Allocation` (weights as stored). -/
structure Allocation where
  spy_weight : ℚ
  tqqq_weight : ℚ
  cash_weight : ℚ
deriving DecidableEq, Repr

/-- `Allocation(...)` construction including `__post_init__` validation:
raises `ValueError` when `abs(total - 1.0) > 0.001`, otherwise stores the
supplied weights unchanged. -/
def mkAllocation (spy tqqq cash : ℚ) : Except String Allocation :=
  let total := spy + tqqq + cash
  if |total - 1| > 0.001 then
    Except.error ("Weights must sum to 1.0, got " ++ toString total)
  else
    Except.ok ⟨spy, tqqq, cash⟩

/-- `Allocation.as_percentages`: the three weights scaled by 100. -/
def Allocation.as_percentages (a : Allocation) : ℚ × ℚ × ℚ :=
  (a.spy_weight * 100, a.tqqq_weight * 100, a.cash_weight * 100)

/-- `datetime` values, observed in the source only through `.isoformat()`. -/
structure DateTime where
  iso : String
deriving DecidableEq, Repr

/-- `datetime.isoformat()`. -/
def DateTime.isoformat (d : DateTime) : String := d.iso

/-- `@dataclass MarketData`. -/
structure MarketData where
  spy_weekly_close : ℚ
  spy_50week_sma : ℚ
  vix_close : ℚ
  vix3m_close : ℚ
  weekly_as_of : Option DateTime
  daily_as_of : Option DateTime
deriving DecidableEq, Repr

/-- `MarketData.vix_ratio` property: raises `ValueError` when
`vix3m_close == 0`, otherwise returns the quotient. -/
def MarketData.vix_ratio (d : MarketData) : Except String ℚ :=
  if d.vix3m_close = 0 then Except.error "VIX3M cannot be zero"
  else Except.ok (d.vix_close / d.vix3m_close)

/-- Python float division: raises `ZeroDivisionError` exactly when the
divisor is zero. -/
def pydiv (a b : ℚ) : Except String ℚ :=
  if b = 0 then Except.error "float division by zero"
  else Except.ok (a / b)

/-- `@dataclass Signal`. -/
structure Signal where
  trend : Trend
  posture : Posture
  vix_level : VIXLevel
  allocation : Allocation
  vix_ratio : ℚ
  spy_close : ℚ
  spy_sma : ℚ
  rebalance_required : Bool
  rebalance_instructions : String
  signal_generated_at : DateTime
  weekly_data_as_of : Option DateTime
  daily_data_as_of : Option DateTime
deriving Repr

/-- JSON-like values, the codomain of `Signal.to_dict`. -/
inductive Json where
  | str : String → Json
  | num : ℚ → Json
  | jbool : Bool → Json
  | null : Json
  | obj : List (String × Json) → Json

/-- Round a rational to the nearest integer, ties to even
(the rounding of Python `round` and of `%.nf` formatting). -/
def roundHalfEven (q : ℚ) : ℤ :=
  let f := Int.floor q
  let frac := q - f
  if frac < 1/2 then f
  else if 1/2 < frac then f + 1
  else if f % 2 = 0 then f else f + 1

/-- Python `round(q, n)`. -/
def pyround (q : ℚ) (n : ℕ) : ℚ :=
  (roundHalfEven (q * 10 ^ n) : ℚ) / 10 ^ n

/-- Python `f"...:.1f"` applied to a non-negative value: one decimal place,
ties to even. -/
def fmt1 (q : ℚ) : String :=
  let n := (roundHalfEven (q * 10)).toNat
  toString (n / 10) ++ "." ++ toString (n % 10)

/-- `Signal.to_dict`. -/
def Signal.to_dict (s : Signal) : Json :=
  let p := s.allocation.as_percentages
  Json.obj [
    ("trend", Json.str s.trend.value),
    ("posture", Json.str s.posture.value),
    ("vix_level", Json.str s.vix_level.value),
    ("allocation", Json.obj [
      ("spy", Json.num p.1),
      ("tqqq", Json.num p.2.1),
      ("cash", Json.num p.2.2)]),
    ("indicators", Json.obj [
      ("vix_ratio", Json.num (pyround s.vix_ratio 4)),
      ("spy_close", Json.num (pyround s.spy_close 2)),
      ("spy_sma", Json.num (pyround s.spy_sma 2))]),
    ("rebalance_required", Json.jbool s.rebalance_required),
    ("rebalance_instructions", Json.str s.rebalance_instructions),
    ("timestamps", Json.obj [
      ("signal_generated", Json.str s.signal_generated_at.isoformat),
      ("weekly_data_as_of",
        match s.weekly_data_as_of with
        | some d => Json.str d.isoformat
        | none => Json.null),
      ("daily_data_as_of",
        match s.daily_data_as_of with
        | some d => Json.str d.isoformat
        | none => Json.null)])]

/-- `determine_trend`. -/
def determine_trend (spy_close spy_sma : ℚ) : Trend :=
  if spy_close > spy_sma then Trend.UPTREND else Trend.DOWNTREND

/-- `classify_vix_level`. -/
def classify_vix_level (r : ℚ) : VIXLevel :=
  if r < StrategyParams.VIX_VERY_LOW then VIXLevel.VERY_LOW
  else if r < StrategyParams.VIX_LOW then VIXLevel.LOW
  else if r < StrategyParams.VIX_MODERATE then VIXLevel.MODERATE
  else if r < StrategyParams.VIX_ELEVATED then VIXLevel.ELEVATED
  else VIXLevel.HIGH

/-- `determine_posture`. -/
def determine_posture (trend : Trend) (r : ℚ) : Posture :=
  if trend = Trend.DOWNTREND then Posture.CASH
  else if r < StrategyParams.VIX_LOW then Posture.AGGRESSIVE
  else if r > StrategyParams.VIX_ELEVATED then Posture.DEFENSIVE
  else Posture.BALANCED

/-- `calculate_allocation`.  Each branch constructs an `Allocation`, whose
validation can in principle raise, hence the `Except` codomain. -/
def calculate_allocation (trend : Trend) (r : ℚ) : Except String Allocation :=
  if trend = Trend.DOWNTREND then mkAllocation 0.0 0.0 1.0
  else if r < StrategyParams.VIX_VERY_LOW then mkAllocation 0.30 0.70 0.0
  else if r < StrategyParams.VIX_LOW then mkAllocation 0.50 0.50 0.0
  else if r < StrategyParams.VIX_MODERATE then mkAllocation 0.60 0.40 0.0
  else if r < StrategyParams.VIX_ELEVATED then mkAllocation 0.75 0.25 0.0
  else mkAllocation 0.85 0.15 0.0

/-- `generate_rebalance_instructions`.  The source's local variables
`spy_change`, `tqqq_change`, `cash_change` (target minus current, per
instrument) and `threshold = 0.001` are inlined. -/
def generate_rebalance_instructions (current target : Allocation) :
    Bool × String :=
  if |target.spy_weight - current.spy_weight| < 0.001 ∧
      |target.tqqq_weight - current.tqqq_weight| < 0.001 ∧
      |target.cash_weight - current.cash_weight| < 0.001 then
    (false, "No rebalance required. Current allocation is optimal.")
  else
    (true, "Execute at next market open: " ++ String.intercalate " | "
      ((if 0.001 ≤ |target.spy_weight - current.spy_weight| then
          [(if 0 < target.spy_weight - current.spy_weight then "BUY"
            else "SELL") ++ " " ++
            fmt1 (|target.spy_weight - current.spy_weight| * 100) ++ "% SPY"]
        else []) ++
       (if 0.001 ≤ |target.tqqq_weight - current.tqqq_weight| then
          [(if 0 < target.tqqq_weight - current.tqqq_weight then "BUY"
            else "SELL") ++ " " ++
            fmt1 (|target.tqqq_weight - current.tqqq_weight| * 100) ++
            "% TQQQ"]
        else []) ++
       (if 0.001 ≤ |target.cash_weight - current.cash_weight| then
          [if 0 < target.cash_weight - current.cash_weight then
            "Move " ++ fmt1 (|target.cash_weight - current.cash_weight| * 100)
              ++ "% to Cash"
          else
            "Deploy " ++
              fmt1 (|target.cash_weight - current.cash_weight| * 100) ++
              "% from Cash"]
        else [])))

/-- `TrendMonsterSignal.generate`.  The generator's only state, its held
current allocation (`None` until `set_current_allocation` is called), is
passed explicitly, as is the wall-clock time `now`. -/
def generate (current : Option Allocation)
    (spy_weekly_close spy_50week_sma vix_close vix3m_close : ℚ)
    (weekly_as_of daily_as_of : Option DateTime) (now : DateTime) :
    Except String Signal := do
  let r ← pydiv vix_close vix3m_close
  let trend := determine_trend spy_weekly_close spy_50week_sma
  let vix_level := classify_vix_level r
  let posture := determine_posture trend r
  let target_allocation ← calculate_allocation trend r
  let rebalance :=
    match current with
    | some c => generate_rebalance_instructions c target_allocation
    | none =>
      (true, "Set current allocation to enable rebalance instructions.")
  Except.ok {
    trend := trend
    posture := posture
    vix_level := vix_level
    allocation := target_allocation
    vix_ratio := r
    spy_close := spy_weekly_close
    spy_sma := spy_50week_sma
    rebalance_required := rebalance.1
    rebalance_instructions := rebalance.2
    signal_generated_at := now
    weekly_data_as_of := weekly_as_of
    daily_data_as_of := daily_as_of }

/-! ## Shared lemmas -/

/-- Binding an `Except.error` short-circuits. -/
lemma except_error_bind {α β : Type} (e : String) (f : α → Except String β) :
    (Except.error e >>= f : Except String β) = Except.error e := rfl

/-- Binding an `Except.ok` applies the continuation. -/
lemma except_ok_bind {α β : Type} (a : α) (f : α → Except String β) :
    (Except.ok a >>= f : Except String β) = f a := rfl

/-- Branch-level characterisation of `calculate_allocation`: every branch's
`mkAllocation` validation succeeds, because each tabled row sums to 1. -/
lemma calculate_allocation_eq (t : Trend) (r : ℚ) :
    calculate_allocation t r =
      if t = Trend.DOWNTREND then Except.ok ⟨0, 0, 1⟩
      else if r < 0.80 then Except.ok ⟨0.30, 0.70, 0⟩
      else if r < 0.90 then Except.ok ⟨0.50, 0.50, 0⟩
      else if r < 0.95 then Except.ok ⟨0.60, 0.40, 0⟩
      else if r < 1.05 then Except.ok ⟨0.75, 0.25, 0⟩
      else Except.ok ⟨0.85, 0.15, 0⟩ := by
  unfold calculate_allocation mkAllocation StrategyParams.VIX_VERY_LOW
    StrategyParams.VIX_LOW StrategyParams.VIX_MODERATE StrategyParams.VIX_ELEVATED
  norm_num

/-- `calculate_allocation` always succeeds and its weights sum to 1. -/
lemma calculate_allocation_ok (t : Trend) (r : ℚ) :
    ∃ a : Allocation, calculate_allocation t r = Except.ok a ∧
      a.spy_weight + a.tqqq_weight + a.cash_weight = 1 := by
  rw [calculate_allocation_eq]
  split_ifs <;> exact ⟨_, rfl, by norm_num⟩

/-! ## Claims -/

/-- C1: `calculate_allocation` realises exactly the §4.3 lookup table:
DOWNTREND maps to (0, 0, 1) for every ratio, and UPTREND maps to
(0.30, 0.70, 0) below 0.80, (0.50, 0.50, 0) on [0.80, 0.90),
(0.60, 0.40, 0) on [0.90, 0.95), (0.75, 0.25, 0) on [0.95, 1.05) and
(0.85, 0.15, 0) from 1.05 up; every returned triple sums to exactly 1,
so the `Allocation` validation never fails. -/
theorem calculate_allocation_matches_table (t : Trend) (r : ℚ) :
    (t = Trend.DOWNTREND →
      calculate_allocation t r = Except.ok ⟨0, 0, 1⟩) ∧
    (t = Trend.UPTREND →
      (r < 0.80 → calculate_allocation t r = Except.ok ⟨0.30, 0.70, 0⟩) ∧
      (0.80 ≤ r → r < 0.90 →
        calculate_allocation t r = Except.ok ⟨0.50, 0.50, 0⟩) ∧
      (0.90 ≤ r → r < 0.95 →
        calculate_allocation t r = Except.ok ⟨0.60, 0.40, 0⟩) ∧
      (0.95 ≤ r → r < 1.05 →
        calculate_allocation t r = Except.ok ⟨0.75, 0.25, 0⟩) ∧
      (1.05 ≤ r → calculate_allocation t r = Except.ok ⟨0.85, 0.15, 0⟩)) ∧
    (∃ a : Allocation, calculate_allocation t r = Except.ok a ∧
      a.spy_weight + a.tqqq_weight + a.cash_weight = 1) := by
  refine ⟨?_, ?_, calculate_allocation_ok t r⟩
  · rintro rfl
    rw [calculate_allocation_eq]
    norm_num
  · rintro rfl
    rw [calculate_allocation_eq,
      if_neg (by simp : ¬ (Trend.UPTREND = Trend.DOWNTREND))]
    refine ⟨fun h1 => by rw [if_pos h1],
      fun h1 h2 => by rw [if_neg (not_lt.mpr h1), if_pos h2],
      fun h1 h2 => by
        rw [if_neg (not_lt.mpr (by linarith : (0.80 : ℚ) ≤ r)),
          if_neg (not_lt.mpr h1), if_pos h2],
      fun h1 h2 => by
        rw [if_neg (not_lt.mpr (by linarith : (0.80 : ℚ) ≤ r)),
          if_neg (not_lt.mpr (by linarith : (0.90 : ℚ) ≤ r)),
          if_neg (not_lt.mpr h1), if_pos h2],
      fun h1 => by
        rw [if_neg (not_lt.mpr (by linarith : (0.80 : ℚ) ≤ r)),
          if_neg (not_lt.mpr (by linarith : (0.90 : ℚ) ≤ r)),
          if_neg (not_lt.mpr (by linarith : (0.95 : ℚ) ≤ r)),
          if_neg (not_lt.mpr h1)]⟩

/-- C1 witness: the table at concrete inputs, one row per band. -/
theorem calculate_allocation_matches_table_witness :
    calculate_allocation Trend.DOWNTREND 0.85 = Except.ok ⟨0, 0, 1⟩ ∧
    calculate_allocation Trend.UPTREND 0.50 = Except.ok ⟨0.30, 0.70, 0⟩ ∧
    calculate_allocation Trend.UPTREND 0.85 = Except.ok ⟨0.50, 0.50, 0⟩ ∧
    calculate_allocation Trend.UPTREND 0.92 = Except.ok ⟨0.60, 0.40, 0⟩ ∧
    calculate_allocation Trend.UPTREND 1.00 = Except.ok ⟨0.75, 0.25, 0⟩ ∧
    calculate_allocation Trend.UPTREND 1.10 = Except.ok ⟨0.85, 0.15, 0⟩ :=
  ⟨(calculate_allocation_matches_table Trend.DOWNTREND 0.85).1 rfl,
   ((calculate_allocation_matches_table Trend.UPTREND 0.50).2.1 rfl).1
     (by norm_num),
   ((calculate_allocation_matches_table Trend.UPTREND 0.85).2.1 rfl).2.1
     (by norm_num) (by norm_num),
   ((calculate_allocation_matches_table Trend.UPTREND 0.92).2.1 rfl).2.2.1
     (by norm_num) (by norm_num),
   ((calculate_allocation_matches_table Trend.UPTREND 1.00).2.1 rfl).2.2.2.1
     (by norm_num) (by norm_num),
   ((calculate_allocation_matches_table Trend.UPTREND 1.10).2.1 rfl).2.2.2.2
     (by norm_num)⟩

/-- C2: `determine_trend` returns UPTREND iff the price is strictly greater
than the reference; otherwise (equality included) it returns DOWNTREND, and
it is total, always returning one of the two members. -/
theorem determine_trend_spec (price reference : ℚ) :
    (determine_trend price reference = Trend.UPTREND ↔ price > reference) ∧
    (¬ price > reference →
      determine_trend price reference = Trend.DOWNTREND) ∧
    (determine_trend price reference = Trend.UPTREND ∨
      determine_trend price reference = Trend.DOWNTREND) := by
  unfold determine_trend
  by_cases h : price > reference
  · simp [h]
  · simp [h]

/-- C2 witness: strictly above, equal, and below reference. -/
theorem determine_trend_spec_witness :
    determine_trend 2 1 = Trend.UPTREND ∧
    determine_trend 1 1 = Trend.DOWNTREND ∧
    determine_trend 0 1 = Trend.DOWNTREND :=
  ⟨(determine_trend_spec 2 1).1.mpr (by norm_num),
   (determine_trend_spec 1 1).2.1 (by norm_num),
   (determine_trend_spec 0 1).2.1 (by norm_num)⟩

/-- C3: `classify_vix_level` realises the five half-open-on-the-left bands
over thresholds 0.80, 0.90, 0.95, 1.05, and each threshold value itself maps
to the band that starts there. The five conditions cover every rational and
assign one level each, so there are no gaps or overlaps. -/
theorem classify_vix_level_bands (r : ℚ) :
    (r < 0.80 → classify_vix_level r = VIXLevel.VERY_LOW) ∧
    (0.80 ≤ r → r < 0.90 → classify_vix_level r = VIXLevel.LOW) ∧
    (0.90 ≤ r → r < 0.95 → classify_vix_level r = VIXLevel.MODERATE) ∧
    (0.95 ≤ r → r < 1.05 → classify_vix_level r = VIXLevel.ELEVATED) ∧
    (1.05 ≤ r → classify_vix_level r = VIXLevel.HIGH) ∧
    classify_vix_level (0.80 : ℚ) = VIXLevel.LOW ∧
    classify_vix_level (0.90 : ℚ) = VIXLevel.MODERATE ∧
    classify_vix_level (0.95 : ℚ) = VIXLevel.ELEVATED ∧
    classify_vix_level (1.05 : ℚ) = VIXLevel.HIGH := by
  unfold classify_vix_level StrategyParams.VIX_VERY_LOW StrategyParams.VIX_LOW
    StrategyParams.VIX_MODERATE StrategyParams.VIX_ELEVATED
  refine ⟨fun h1 => ?_, fun h1 h2 => ?_, fun h1 h2 => ?_, fun h1 h2 => ?_,
    fun h1 => ?_, by norm_num, by norm_num, by norm_num, by norm_num⟩ <;>
    split_ifs <;> first | rfl | linarith

/-- C3 witness: one value per band, including every threshold. -/
theorem classify_vix_level_bands_witness :
    classify_vix_level 0.50 = VIXLevel.VERY_LOW ∧
    classify_vix_level 0.85 = VIXLevel.LOW ∧
    classify_vix_level 0.92 = VIXLevel.MODERATE ∧
    classify_vix_level 1.00 = VIXLevel.ELEVATED ∧
    classify_vix_level 1.10 = VIXLevel.HIGH ∧
    classify_vix_level 0.80 = VIXLevel.LOW :=
  ⟨(classify_vix_level_bands 0.50).1 (by norm_num),
   (classify_vix_level_bands 0.85).2.1 (by norm_num) (by norm_num),
   (classify_vix_level_bands 0.92).2.2.1 (by norm_num) (by norm_num),
   (classify_vix_level_bands 1.00).2.2.2.1 (by norm_num) (by norm_num),
   (classify_vix_level_bands 1.10).2.2.2.2.1 (by norm_num),
   (classify_vix_level_bands 0.80).2.2.2.2.2.1⟩

/-- C4 counterexample: in an uptrend with ratio exactly 1.05,
`determine_posture` returns BALANCED, not DEFENSIVE as the claim states
(the source tests `vix_ratio > VIX_ELEVATED` with a strict `>`, so the
upper boundary falls in the lower bucket). -/
theorem determine_posture_boundary_counterexample :
    determine_posture Trend.UPTREND 1.05 = Posture.BALANCED ∧
    ¬ determine_posture Trend.UPTREND 1.05 = Posture.DEFENSIVE := by
  unfold determine_posture StrategyParams.VIX_LOW StrategyParams.VIX_ELEVATED
  rw [if_neg (by simp : ¬ (Trend.UPTREND = Trend.DOWNTREND)),
    if_neg (by norm_num : ¬ ((1.05 : ℚ) < 0.90)),
    if_neg (by norm_num : ¬ ((1.05 : ℚ) > 1.05))]
  exact ⟨rfl, by simp⟩

/-- C4 (amended): `determine_posture` returns CASH for DOWNTREND regardless
of ratio; for UPTREND it returns AGGRESSIVE for ratio < 0.90, BALANCED for
0.90 ≤ ratio ≤ 1.05 and DEFENSIVE for ratio > 1.05 — the 0.90 boundary
belongs to the higher bucket (BALANCED) but the 1.05 boundary belongs to the
lower bucket (BALANCED), since DEFENSIVE requires strictly more than 1.05. -/
theorem determine_posture_spec (t : Trend) (r : ℚ) :
    (t = Trend.DOWNTREND → determine_posture t r = Posture.CASH) ∧
    (t = Trend.UPTREND →
      (r < 0.90 → determine_posture t r = Posture.AGGRESSIVE) ∧
      (0.90 ≤ r → r ≤ 1.05 → determine_posture t r = Posture.BALANCED) ∧
      (1.05 < r → determine_posture t r = Posture.DEFENSIVE)) := by
  unfold determine_posture StrategyParams.VIX_LOW StrategyParams.VIX_ELEVATED
  constructor
  · rintro rfl
    norm_num
  · rintro rfl
    rw [if_neg (by simp : ¬ (Trend.UPTREND = Trend.DOWNTREND))]
    refine ⟨fun h1 => by rw [if_pos h1],
      fun h1 h2 => by rw [if_neg (not_lt.mpr h1), if_neg (not_lt.mpr h2)],
      fun h1 => by
        rw [if_neg (not_lt.mpr (by linarith : (0.90 : ℚ) ≤ r)), if_pos h1]⟩

/-- C4 witness: both boundaries and each bucket at concrete ratios. -/
theorem determine_posture_spec_witness :
    determine_posture Trend.DOWNTREND 0.50 = Posture.CASH ∧
    determine_posture Trend.UPTREND 0.85 = Posture.AGGRESSIVE ∧
    determine_posture Trend.UPTREND 0.90 = Posture.BALANCED ∧
    determine_posture Trend.UPTREND 1.05 = Posture.BALANCED ∧
    determine_posture Trend.UPTREND 1.06 = Posture.DEFENSIVE :=
  ⟨(determine_posture_spec Trend.DOWNTREND 0.50).1 rfl,
   ((determine_posture_spec Trend.UPTREND 0.85).2 rfl).1 (by norm_num),
   ((determine_posture_spec Trend.UPTREND 0.90).2 rfl).2.1 (by norm_num)
     (by norm_num),
   ((determine_posture_spec Trend.UPTREND 1.05).2 rfl).2.1 (by norm_num)
     (by norm_num),
   ((determine_posture_spec Trend.UPTREND 1.06).2 rfl).2.2 (by norm_num)⟩

/-- Validity of an `Allocation`, exactly the `__post_init__` acceptance
condition: the weight total is within 0.001 of 1. -/
def Allocation.valid (a : Allocation) : Prop :=
  |a.spy_weight + a.tqqq_weight + a.cash_weight - 1| ≤ 0.001

/-- C5: for valid allocations, the rebalance diff reports `required = false`
exactly when all three deltas (target minus current) are strictly below
0.001 in absolute value; in that case the instruction string is the fixed
no-action message, and in particular `diff(X, X)` returns exactly
`(false, that message)` for every allocation X. -/
theorem rebalance_no_action_spec (current target : Allocation)
    (_hc : current.valid) (_ht : target.valid) :
    ((generate_rebalance_instructions current target).1 = false ↔
      |target.spy_weight - current.spy_weight| < 0.001 ∧
      |target.tqqq_weight - current.tqqq_weight| < 0.001 ∧
      |target.cash_weight - current.cash_weight| < 0.001) ∧
    ((generate_rebalance_instructions current target).1 = false →
      (generate_rebalance_instructions current target).2 =
        "No rebalance required. Current allocation is optimal.") ∧
    generate_rebalance_instructions current current =
      (false, "No rebalance required. Current allocation is optimal.") := by
  unfold generate_rebalance_instructions
  refine ⟨?_, ?_, ?_⟩
  · by_cases h : |target.spy_weight - current.spy_weight| < 0.001 ∧
        |target.tqqq_weight - current.tqqq_weight| < 0.001 ∧
        |target.cash_weight - current.cash_weight| < 0.001
    · rw [if_pos h]
      simpa using h
    · rw [if_neg h]
      simpa using h
  · by_cases h : |target.spy_weight - current.spy_weight| < 0.001 ∧
        |target.tqqq_weight - current.tqqq_weight| < 0.001 ∧
        |target.cash_weight - current.cash_weight| < 0.001
    · rw [if_pos h]
      exact fun _ => rfl
    · rw [if_neg h]
      exact fun hfalse => absurd hfalse (by simp)
  · rw [if_pos (by norm_num)]

/-- C5 witness: a held 50/50/0 allocation against itself. -/
theorem rebalance_no_action_spec_witness :
    generate_rebalance_instructions ⟨0.5, 0.5, 0⟩ ⟨0.5, 0.5, 0⟩ =
      (false, "No rebalance required. Current allocation is optimal.") :=
  (rebalance_no_action_spec ⟨0.5, 0.5, 0⟩ ⟨0.5, 0.5, 0⟩
    (by norm_num [Allocation.valid]) (by norm_num [Allocation.valid])).2.2

/-- C6: when at least one delta is material (absolute value at least 0.001),
the diff reports `required = true` and emits one instruction per material
instrument, in the fixed order SPY, TQQQ, cash: BUY when a tradeable delta is
positive and SELL when it is negative, move-to-cash when the cash delta is
positive and deploy-from-cash when it is negative, all joined with the fixed
separator and prefixed with the fixed execution-timing notice. -/
theorem rebalance_material_spec (current target : Allocation)
    (h : ¬ (|target.spy_weight - current.spy_weight| < 0.001 ∧
            |target.tqqq_weight - current.tqqq_weight| < 0.001 ∧
            |target.cash_weight - current.cash_weight| < 0.001)) :
    (generate_rebalance_instructions current target).1 = true ∧
    (generate_rebalance_instructions current target).2 =
      "Execute at next market open: " ++ String.intercalate " | "
        ((if 0.001 ≤ |target.spy_weight - current.spy_weight| then
            [(if 0 < target.spy_weight - current.spy_weight then "BUY"
              else "SELL") ++ " " ++
              fmt1 (|target.spy_weight - current.spy_weight| * 100) ++
              "% SPY"]
          else []) ++
         (if 0.001 ≤ |target.tqqq_weight - current.tqqq_weight| then
            [(if 0 < target.tqqq_weight - current.tqqq_weight then "BUY"
              else "SELL") ++ " " ++
              fmt1 (|target.tqqq_weight - current.tqqq_weight| * 100) ++
              "% TQQQ"]
          else []) ++
         (if 0.001 ≤ |target.cash_weight - current.cash_weight| then
            [if 0 < target.cash_weight - current.cash_weight then
              "Move " ++
                fmt1 (|target.cash_weight - current.cash_weight| * 100) ++
                "% to Cash"
            else
              "Deploy " ++
                fmt1 (|target.cash_weight - current.cash_weight| * 100) ++
                "% from Cash"]
          else [])) := by
  unfold generate_rebalance_instructions
  rw [if_neg h]
  exact ⟨rfl, rfl⟩

/-- C6 witness: moving all-cash to 50/50/0 emits three instructions in the
fixed order with the expected verbs. -/
theorem rebalance_material_spec_witness :
    (generate_rebalance_instructions ⟨0, 0, 1⟩ ⟨0.5, 0.5, 0⟩).1 = true :=
  (rebalance_material_spec ⟨0, 0, 1⟩ ⟨0.5, 0.5, 0⟩ (by norm_num)).1

/-- C7: a zero volatility denominator makes `generate` return an error, not
a `Signal`, at the point the ratio is computed; the explicit check in
`MarketData.vix_ratio` likewise raises on a zero denominator. -/
theorem generate_zero_denominator (current : Option Allocation)
    (pc sma vc : ℚ) (w d : Option DateTime) (now : DateTime) :
    generate current pc sma vc 0 w d now =
      Except.error "float division by zero" ∧
    ∀ md : MarketData, md.vix3m_close = 0 →
      md.vix_ratio = Except.error "VIX3M cannot be zero" := by
  constructor
  · have hp : pydiv vc 0 = Except.error "float division by zero" := by
      simp [pydiv]
    unfold generate
    rw [hp, except_error_bind]
  · intro md hmd
    simp [MarketData.vix_ratio, hmd]

/-- C7 witness: the division fault at concrete market data. -/
theorem generate_zero_denominator_witness :
    generate none 450 420 15.5 0 none none ⟨"2026-01-02T00:00:00"⟩ =
      Except.error "float division by zero" ∧
    (MarketData.mk 450 420 15.5 0 none none).vix_ratio =
      Except.error "VIX3M cannot be zero" :=
  ⟨(generate_zero_denominator none 450 420 15.5 none none
      ⟨"2026-01-02T00:00:00"⟩).1,
   (generate_zero_denominator none 450 420 15.5 none none
      ⟨"2026-01-02T00:00:00"⟩).2 (MarketData.mk 450 420 15.5 0 none none)
      rfl⟩

/-- C8 counterexample: a negative weight is accepted by `Allocation`
construction whenever the weights still sum to 1 — non-negativity is not
part of the enforced invariant, contrary to the claim that construction
fails whenever a weight is negative. -/
theorem mkAllocation_negative_weight_counterexample :
    mkAllocation (-0.5) 0.5 1 = Except.ok ⟨-0.5, 0.5, 1⟩ ∧
    (-0.5 : ℚ) < 0 := by
  constructor
  · unfold mkAllocation
    rw [if_neg (by norm_num)]
  · norm_num

/-- C8 (amended): `Allocation` construction enforces only the sum invariant:
it fails exactly when the weight total differs from 1 by more than 0.001,
and on success it stores exactly the supplied weights, never normalising
them; non-negativity is not checked. -/
theorem mkAllocation_spec (spy tqqq cash : ℚ) :
    (|spy + tqqq + cash - 1| ≤ 0.001 →
      mkAllocation spy tqqq cash = Except.ok ⟨spy, tqqq, cash⟩) ∧
    (0.001 < |spy + tqqq + cash - 1| →
      mkAllocation spy tqqq cash = Except.error
        ("Weights must sum to 1.0, got " ++ toString (spy + tqqq + cash))) := by
  unfold mkAllocation
  constructor
  · intro h
    rw [if_neg (not_lt.mpr h)]
  · intro h
    rw [if_pos h]

/-- C8 witness: an accepted exact triple and a rejected overweight triple. -/
theorem mkAllocation_spec_witness :
    mkAllocation 0.3 0.7 0 = Except.ok ⟨0.3, 0.7, 0⟩ ∧
    mkAllocation 1 1 1 = Except.error
      ("Weights must sum to 1.0, got " ++ toString (1 + 1 + 1 : ℚ)) :=
  ⟨(mkAllocation_spec 0.3 0.7 0).1 (by norm_num),
   (mkAllocation_spec 1 1 1).2 (by norm_num)⟩

/-- C9: with no current allocation set, `generate` does not fault: it
returns a Signal with `rebalance_required = true` and the fixed placeholder
instruction, while every other field (trend, posture, level, target
allocation, raw values, timestamps) is computed exactly as in the held
case. -/
theorem generate_without_current_allocation (pc sma vc v3 : ℚ) (hv : v3 ≠ 0)
    (w d : Option DateTime) (now : DateTime) :
    ∃ sig : Signal,
      generate none pc sma vc v3 w d now = Except.ok sig ∧
      sig.rebalance_required = true ∧
      sig.rebalance_instructions =
        "Set current allocation to enable rebalance instructions." ∧
      sig.trend = determine_trend pc sma ∧
      sig.vix_level = classify_vix_level (vc / v3) ∧
      sig.posture = determine_posture (determine_trend pc sma) (vc / v3) ∧
      calculate_allocation (determine_trend pc sma) (vc / v3) =
        Except.ok sig.allocation ∧
      sig.vix_ratio = vc / v3 ∧
      sig.spy_close = pc ∧
      sig.spy_sma = sma ∧
      sig.signal_generated_at = now ∧
      sig.weekly_data_as_of = w ∧
      sig.daily_data_as_of = d := by
  obtain ⟨a, ha, -⟩ := calculate_allocation_ok (determine_trend pc sma) (vc / v3)
  have hp : pydiv vc v3 = Except.ok (vc / v3) := by simp [pydiv, hv]
  refine ⟨{ trend := determine_trend pc sma,
            posture := determine_posture (determine_trend pc sma) (vc / v3),
            vix_level := classify_vix_level (vc / v3),
            allocation := a,
            vix_ratio := vc / v3,
            spy_close := pc,
            spy_sma := sma,
            rebalance_required := true,
            rebalance_instructions :=
              "Set current allocation to enable rebalance instructions.",
            signal_generated_at := now,
            weekly_data_as_of := w,
            daily_data_as_of := d },
    ?_, rfl, rfl, rfl, rfl, rfl, ha, rfl, rfl, rfl, rfl, rfl, rfl⟩
  unfold generate
  rw [hp, except_ok_bind]
  simp [ha, except_ok_bind]

/-- C9 witness: scenario-1 market data with no held allocation. -/
theorem generate_without_current_allocation_witness :
    (generate none 595 540 14.5 17.8 none none
        ⟨"2026-01-02T00:00:00"⟩).map
      (fun s => (s.rebalance_required, s.rebalance_instructions)) =
      Except.ok
        (true, "Set current allocation to enable rebalance instructions.") := by
  obtain ⟨sig, hg, h1, h2, -⟩ :=
    generate_without_current_allocation 595 540 14.5 17.8 (by norm_num)
      none none ⟨"2026-01-02T00:00:00"⟩
  rw [hg]
  simp [Except.map, h1, h2]

/-- A concrete signal used to exhibit the unrounded allocation percentages
in the serialized record. -/
def sampleSignal : Signal where
  trend := Trend.UPTREND
  posture := Posture.BALANCED
  vix_level := VIXLevel.MODERATE
  allocation := ⟨0.123456, 0.876544, 0⟩
  vix_ratio := 0.92
  spy_close := 450
  spy_sma := 420
  rebalance_required := false
  rebalance_instructions :=
    "No rebalance required. Current allocation is optimal."
  signal_generated_at := ⟨"2026-01-02T00:00:00"⟩
  weekly_data_as_of := none
  daily_data_as_of := none

/-- C10 counterexample: for a signal whose (valid) allocation has spy weight
0.123456, the record's allocation entry is the exact 12.3456 — different
from its rounding at 0, 1, 2 or 3 decimal places — so the percentages in
the record are not rounded for display; the only display rounding of
percentages in the source is the whole-percent formatting of the separate
human-readable string, which would give 12 here. -/
theorem to_dict_percentages_unrounded_counterexample :
    sampleSignal.allocation.valid ∧
    sampleSignal.to_dict = Json.obj [
      ("trend", Json.str "UPTREND"),
      ("posture", Json.str "BALANCED"),
      ("vix_level", Json.str "MODERATE"),
      ("allocation", Json.obj [
        ("spy", Json.num 12.3456),
        ("tqqq", Json.num 87.6544),
        ("cash", Json.num 0)]),
      ("indicators", Json.obj [
        ("vix_ratio", Json.num 0.92),
        ("spy_close", Json.num 450),
        ("spy_sma", Json.num 420)]),
      ("rebalance_required", Json.jbool false),
      ("rebalance_instructions",
        Json.str "No rebalance required. Current allocation is optimal."),
      ("timestamps", Json.obj [
        ("signal_generated", Json.str "2026-01-02T00:00:00"),
        ("weekly_data_as_of", Json.null),
        ("daily_data_as_of", Json.null)])] ∧
    pyround 12.3456 0 = 12 ∧
    (12.3456 : ℚ) ≠ pyround 12.3456 0 ∧
    (12.3456 : ℚ) ≠ pyround 12.3456 1 ∧
    (12.3456 : ℚ) ≠ pyround 12.3456 2 ∧
    (12.3456 : ℚ) ≠ pyround 12.3456 3 := by
  refine ⟨by norm_num [Allocation.valid, sampleSignal], ?_, ?_, ?_, ?_, ?_, ?_⟩
  · norm_num [sampleSignal, Signal.to_dict, Allocation.as_percentages,
      Trend.value, Posture.value, VIXLevel.value, DateTime.isoformat,
      pyround, roundHalfEven]
  all_goals norm_num [pyround, roundHalfEven]

/-- C10 (amended): `Signal.to_dict` produces exactly the wire-contract
record, field for field: trend, posture, vix_level, an allocation
sub-record carrying the three weights as exact percentages (weight × 100,
not rounded), an indicators sub-record with the ratio rounded to 4 decimals
and price and reference rounded to 2 decimals, rebalance_required,
rebalance_instructions, and a timestamps sub-record with the generation
time and the weekly and daily as-of values, null when absent. -/
theorem to_dict_spec (s : Signal) :
    s.to_dict = Json.obj [
      ("trend", Json.str s.trend.value),
      ("posture", Json.str s.posture.value),
      ("vix_level", Json.str s.vix_level.value),
      ("allocation", Json.obj [
        ("spy", Json.num (s.allocation.spy_weight * 100)),
        ("tqqq", Json.num (s.allocation.tqqq_weight * 100)),
        ("cash", Json.num (s.allocation.cash_weight * 100))]),
      ("indicators", Json.obj [
        ("vix_ratio", Json.num (pyround s.vix_ratio 4)),
        ("spy_close", Json.num (pyround s.spy_close 2)),
        ("spy_sma", Json.num (pyround s.spy_sma 2))]),
      ("rebalance_required", Json.jbool s.rebalance_required),
      ("rebalance_instructions", Json.str s.rebalance_instructions),
      ("timestamps", Json.obj [
        ("signal_generated", Json.str s.signal_generated_at.isoformat),
        ("weekly_data_as_of",
          match s.weekly_data_as_of with
          | some dt => Json.str dt.isoformat
          | none => Json.null),
        ("daily_data_as_of",
          match s.daily_data_as_of with
          | some dt => Json.str dt.isoformat
          | none => Json.null)])] := rfl

end Trendmonster
